import Mathlib

/-!
# vcore `surveillance`: the Sentry error reporter

A shallow embedding of `surveillance/sentry.go`.

* Effects (calls into the Sentry SDK and into the package `log`) are recorded,
  in program order, as a list of `Effect`s returned next to the outcome.
* A Go `panic` is an explicit `Outcome.panicked`, carrying the panic value.
  The two run-time faults the Go code can raise by itself (a failed type
  assertion, a nil pointer dereference) are panic values of their own.
* What the SDK answers (client construction, the event identifier of a
  submission) and what the instrumentation handler of `vcore/sentry` does to a
  handler are parameters, collected in `Sdk`.
* `sentry.WithScope` and `sentry.CaptureException` are the package-level
  functions of the SDK: they act on the process-wide hub. `Capture` is the call
  running alone on that hub; `Pool` runs several calls at once on its scope
  stack, one SDK call at a time.
-/

namespace surveillance

/-! ## Go values -/

/-- A Go map by content: the value bound to each key, if any. Whether a map is
the nil map is kept apart (`Option (GoMap β)`) where the code tests it. -/
abbrev GoMap (β : Type) := String → Option β

/-- The map with no entry. -/
def GoMap.empty {β : Type} : GoMap β := fun _ => none

/-- The map literal with one entry, `map[string]T{key: value}`. -/
def GoMap.single {β : Type} (key : String) (value : β) : GoMap β :=
  fun k => if k = key then some value else none

/-- The assignment `m[key] = value`. -/
def GoMap.set {β : Type} (m : GoMap β) (key : String) (value : β) : GoMap β :=
  fun k => if k = key then some value else m k

/-- The loop `for k, v := range src { dst[k] = v }`. -/
def GoMap.setAll {β : Type} (dst src : GoMap β) : GoMap β :=
  fun k => match src k with
    | some v => some v
    | none => dst k

/-- The dynamic value held by an `interface{}`: the code tells a `bool` from
everything else. -/
inductive Value where
  | nil
  | bool (b : Bool)
  | string (s : String)
  | int (i : Int)
  deriving DecidableEq, Repr

/-- The single-valued type assertion `v.(bool)`: `none` stands for the run-time
panic Go raises when the dynamic type of `v` is not `bool` (a nil interface
included). -/
def Value.assertBool : Value → Option Bool
  | Value.bool b => some b
  | _ => none

/-- A non-nil `error`, by what the package `errors` reads off it:
`errors.Extras` (`none` is the nil map), `errors.Stacktrace`, `errors.Tags`. -/
structure ErrorValue where
  message : String
  extras : Option (GoMap Value)
  stacktrace : Value
  tags : GoMap String

/-- The call `errors.Extras(err)`. -/
def errors.Extras (err : ErrorValue) : Option (GoMap Value) := err.extras

/-- The call `errors.Stacktrace(err)`, as the interface value handed to `SetExtra`. -/
def errors.Stacktrace (err : ErrorValue) : Value := err.stacktrace

/-- The call `errors.Tags(err)`; a nil map and an empty map range over the same (no)
entries, which is all `SetTags` does with it. -/
def errors.Tags (err : ErrorValue) : GoMap String := err.tags

/-! ## The Sentry SDK -/

/-- The struct `sentry.ClientOptions`, the two fields `initSentry` sets. -/
structure ClientOptions where
  Dsn : String
  Environment : String
  deriving DecidableEq, Repr

/-- A `*sentry.Client` that is not nil. -/
structure Client where
  options : ClientOptions
  deriving DecidableEq, Repr

/-- A `sentry.EventID`. -/
abbrev EventID := String

/-- A `sentry.Scope`: the extras and the tags attached to an event. -/
structure Scope where
  extra : GoMap Value
  tags : GoMap String

/-- The call `sentry.NewScope()`: a scope on which nothing is set, the scope of
a hub that no code has configured. -/
def sentry.NewScope : Scope := ⟨GoMap.empty, GoMap.empty⟩

/-- The process-wide `sentry.Hub` as a call running alone meets it: the bound
client and the scope of the top layer of its stack. -/
structure Hub where
  client : Option Client
  scope : Scope

/-- The method `scope.SetExtras(extra)`. -/
def Scope.SetExtras (scope : Scope) (extra : GoMap Value) : Scope :=
  ⟨GoMap.setAll scope.extra extra, scope.tags⟩

/-- The method `scope.SetExtra(key, value)`. -/
def Scope.SetExtra (scope : Scope) (key : String) (value : Value) : Scope :=
  ⟨GoMap.set scope.extra key value, scope.tags⟩

/-- The method `scope.SetTags(tags)`. -/
def Scope.SetTags (scope : Scope) (tags : GoMap String) : Scope :=
  ⟨scope.extra, GoMap.setAll scope.tags tags⟩

/-- A call that leaves the package, in the order made: the scope setters, the
remote submission (with the scope it is made in), and the entries written
through the package `log`. -/
inductive Effect where
  | SetExtras (extra : GoMap Value)
  | SetExtra (key : String) (value : Value)
  | SetTags (tags : GoMap String)
  | CaptureException (err : ErrorValue) (scope : Scope)
  | Errorf (err : ErrorValue) (format : String) (eventId : EventID)
  | Error (err : ErrorValue)
  | Warnf (format : String) (arg : String)

/-- The value carried by a Go panic. -/
inductive PanicValue where
  | error (err : ErrorValue)
  | typeAssertion (v : Value)
  | nilDereference

/-- How a call ends: it returns, or it panics. -/
inductive Outcome where
  | returned
  | panicked (v : PanicValue)

/-! ## HTTP handlers -/

/-- An `http.ResponseWriter`, as a handle. -/
structure http.ResponseWriter where
  id : Nat
  deriving DecidableEq, Repr

/-- An `*http.Request`. -/
structure http.Request where
  Method : String
  Path : String
  deriving DecidableEq, Repr

/-- The type `httprouter.Params`. -/
abbrev httprouter.Params := List (String × String)

/-- An `http.HandlerFunc`: what the function does to the state `σ` of the
serving program, and how it ends. -/
abbrev http.HandlerFunc (σ : Type) :=
  http.ResponseWriter → http.Request → σ → Outcome × σ

/-- The interface `http.Handler`. -/
structure http.Handler (σ : Type) where
  ServeHTTP : http.ResponseWriter → http.Request → σ → Outcome × σ

/-- The method `ServeHTTP` of `http.HandlerFunc` calls the function: this is the
conversion of a handler function to an `http.Handler`. -/
def http.HandlerFunc.toHandler {σ : Type} (f : http.HandlerFunc σ) : http.Handler σ :=
  ⟨fun w r => f w r⟩

/-- A `httprouter.Handle`. -/
abbrev httprouter.Handle (σ : Type) :=
  http.ResponseWriter → http.Request → httprouter.Params → σ → Outcome × σ

/-- The struct `sentryhttp.Options`, the field `initSentry` sets. -/
structure sentryhttp.Options where
  Repanic : Bool
  deriving DecidableEq, Repr

/-- A `*sentryWrapper.Handler` (package `vcore/sentry`) that is not nil, by its
two methods; what they do to a handler is left open. -/
structure sentryWrapper.Handler (σ : Type) where
  HandleFunc : http.HandlerFunc σ → http.HandlerFunc σ
  HandleHttpRouter : httprouter.Handle σ → httprouter.Handle σ

/-- What the code takes from outside the file:
* `NewClient`: whether `sentry.Init` can build a client from the options (the
  error otherwise);
* `CaptureException`: the event identifier `sentry.CaptureException` returns
  for an error submitted in a scope, `none` for a nil `*EventID`;
* `New`: the handler `sentryWrapper.New` builds (a constructor: its result is
  not nil). -/
structure Sdk (σ : Type) where
  NewClient : ClientOptions → Except String Client
  CaptureException : ErrorValue → Scope → Option EventID
  New : sentryhttp.Options → sentryWrapper.Handler σ

/-- The call `sentry.Init(options)`: on failure the error is returned and the hub is left
as it is; on success the new client is bound to the current hub. -/
def sentry.Init {σ : Type} (sdk : Sdk σ) (options : ClientOptions) (hub : Hub) :
    Option String × Hub :=
  match sdk.NewClient options with
  | Except.error err => (some err, hub)
  | Except.ok client => (none, ⟨some client, hub.scope⟩)

/-- The call `sentry.WithScope(f)` running alone on the hub: a clone of the
scope of the hub's top layer is pushed, `f` runs on it, and it is popped when
`f` ends, by return or by panic (the pop is deferred), which leaves the hub as
it was; the calls `f` made stay made. -/
def sentry.WithScope (hub : Hub) (f : Scope → Outcome × Scope × List Effect) :
    Outcome × List Effect :=
  let r := f hub.scope
  (r.1, r.2.2)

/-! ## The reporter -/

/-- The struct `Sentry`: both fields are pointers, `none` is nil. -/
structure Sentry (σ : Type) where
  client : Option Client
  handler : Option (sentryWrapper.Handler σ)

/-- The format of the warning of `initSentry`. -/
def initSentry.warning : String := "Could not initialize sentry with DSN: %s"

/-- The function `initSentry` (sentry.go 19-44). `Getenv` is `os.Getenv`, `hub` the current
hub when the package is set up. Returns the reporter and the log entries
written. -/
def initSentry {σ : Type} (sdk : Sdk σ) (Getenv : String → String) (hub : Hub) :
    Sentry σ × List Effect :=
  let dsn := Getenv "SENTRY_DSN"
  if dsn ≠ "" then
    match sentry.Init sdk ⟨dsn, Getenv "ENVIRONMENT"⟩ hub with
    | (some _, _) => (⟨none, none⟩, [Effect.Warnf initSentry.warning dsn])
    | (none, hub1) => (⟨hub1.client, some (sdk.New ⟨true⟩)⟩, [])
  else
    (⟨none, none⟩, [Effect.Warnf initSentry.warning dsn])

/-- The condition `abortLog, ok := extras["custom_service"]; ok && abortLog.(bool)`
(sentry.go 75): the assertion is evaluated only when the key is present, and
panics when the value is not a `bool`. -/
def Capture.abortLog (extras : GoMap Value) : Except PanicValue Bool :=
  match extras "custom_service" with
  | none => Except.ok false
  | some abortLog =>
    match abortLog.assertBool with
    | some b => Except.ok b
    | none => Except.error (PanicValue.typeAssertion abortLog)

/-- The format of the log entry written after a submission. -/
def Capture.format : String := "Error captured in sentry with the event ID `%s`"

/-- Lines 86-91 of sentry.go, the end of the callback: set the tags, submit,
log with the event identifier. The submission goes to the current hub and
takes the scope of its top layer, which for a call running alone is the scope
of the callback. `*eventId` is evaluated
before `log.Errorf` is called and panics on a nil identifier. `done` are the
calls made so far. -/
def Capture.submit {σ : Type} (sdk : Sdk σ) (err : ErrorValue) (scope : Scope)
    (done : List Effect) : Outcome × Scope × List Effect :=
  let scope1 := scope.SetTags (errors.Tags err)
  let eventId := sdk.CaptureException err scope1
  let done1 := done ++ [Effect.SetTags (errors.Tags err), Effect.CaptureException err scope1]
  match eventId with
  | none => (Outcome.panicked PanicValue.nilDereference, scope1, done1)
  | some id => (Outcome.returned, scope1, done1 ++ [Effect.Errorf err Capture.format id])

/-- The callback handed to `sentry.WithScope` (sentry.go 71-92). -/
def Capture.callback {σ : Type} (sdk : Sdk σ) (err : ErrorValue) (scope : Scope) :
    Outcome × Scope × List Effect :=
  match errors.Extras err with
  | some extras =>
    match Capture.abortLog extras with
    | Except.error v => (Outcome.panicked v, scope, [])
    | Except.ok true => (Outcome.returned, scope, [])
    | Except.ok false =>
      Capture.submit sdk err
        ((scope.SetExtras extras).SetExtra "stacktrace" (errors.Stacktrace err))
        [Effect.SetExtras extras, Effect.SetExtra "stacktrace" (errors.Stacktrace err)]
  | none =>
    Capture.submit sdk err
      (scope.SetExtras (GoMap.single "stacktrace" (errors.Stacktrace err)))
      [Effect.SetExtras (GoMap.single "stacktrace" (errors.Stacktrace err))]

/-- The method `Sentry.Capture` (sentry.go 67-102), running alone on the hub;
`err = none` is the nil error. A panic raised inside the callback leaves
`Capture` at once, so `panic(err)` is reached only when the branch taken
returned. -/
def Capture {σ : Type} (sdk : Sdk σ) (wrapper : Sentry σ) (hub : Hub)
    (err : Option ErrorValue) (_panic : Bool) : Outcome × List Effect :=
  match err with
  | none => (Outcome.returned, [])
  | some e =>
    let r : Outcome × List Effect :=
      match wrapper.client with
      | some _ => sentry.WithScope hub (Capture.callback sdk e)
      | none => (Outcome.returned, [Effect.Error e])
    match r.1 with
    | Outcome.panicked v => (Outcome.panicked v, r.2)
    | Outcome.returned =>
      if _panic then (Outcome.panicked (PanicValue.error e), r.2)
      else (Outcome.returned, r.2)

/-- The method `Sentry.HandleFunc` (sentry.go 106-114). -/
def HandleFunc {σ : Type} (wrapper : Sentry σ) (handler : http.HandlerFunc σ) :
    http.HandlerFunc σ :=
  match wrapper.handler with
  | some h => h.HandleFunc handler
  | none => handler

/-- The method `Sentry.HandleHttpRouter` (sentry.go 118-126). -/
def HandleHttpRouter {σ : Type} (wrapper : Sentry σ) (handler : httprouter.Handle σ) :
    httprouter.Handle σ :=
  match wrapper.handler with
  | some h => h.HandleHttpRouter handler
  | none => handler

/-- The method `Sentry.SentryMiddleware` (sentry.go 130-134): the handler function returned
by `HandleFunc` is returned as an `http.Handler`. -/
def SentryMiddleware {σ : Type} (wrapper : Sentry σ) (next : http.Handler σ) :
    http.Handler σ :=
  http.HandlerFunc.toHandler (HandleFunc wrapper (fun w r => next.ServeHTTP w r))

/-! ## Reading a list of effects -/

/-- The remote submissions among the effects, in order: the error and the scope
of each. -/
def submissions : List Effect → List (ErrorValue × Scope)
  | [] => []
  | Effect.CaptureException err scope :: rest => (err, scope) :: submissions rest
  | _ :: rest => submissions rest

/-! ## Concurrent calls on the process-wide hub -/

/-- One call into the SDK that reads or writes the scope stack of the hub: the
unit of interleaving between concurrent calls of `Capture`. -/
inductive Op where
  | PushScope
  | SetExtras (extra : GoMap Value)
  | SetExtra (key : String) (value : Value)
  | SetTags (tags : GoMap String)
  | CaptureException (err : ErrorValue)
  | PopScope

/-- The SDK calls of `Capture(err, _)` on the scope stack, in program order
(sentry.go 71-92): `WithScope` pushes, the callback sets the extras and the tags
and submits unless it left at line 75 or 76, and the deferred pop runs however
the callback ends. A nil error and a reporter without client make none. -/
def Capture.steps {σ : Type} (wrapper : Sentry σ) (err : Option ErrorValue) : List Op :=
  match err, wrapper.client with
  | some e, some _ =>
    Op.PushScope ::
      (match errors.Extras e with
        | some extras =>
          match Capture.abortLog extras with
          | Except.ok false =>
            [Op.SetExtras extras, Op.SetExtra "stacktrace" (errors.Stacktrace e),
              Op.SetTags (errors.Tags e), Op.CaptureException e]
          | _ => []
        | none =>
          [Op.SetExtras (GoMap.single "stacktrace" (errors.Stacktrace e)),
            Op.SetTags (errors.Tags e), Op.CaptureException e])
      ++ [Op.PopScope]
  | _, _ => []

/-- The scope stack of the process-wide hub, which `sentry.WithScope` and
`sentry.CaptureException` both go to. `root` is the scope of the bottom layer,
which is never popped; `pushed` names, top first, the tasks whose pushed layer
is on the stack; `object task` is the scope object that the `PushScope` of the
task made, which the callback of that task holds by pointer. -/
structure Stack where
  root : Scope
  object : Nat → Scope
  pushed : List Nat

/-- The scope of the top layer, `hub.Scope()`. -/
def Stack.top (s : Stack) : Scope :=
  match s.pushed with
  | [] => s.root
  | task :: _ => s.object task

/-- The scope object of a task replaced by its new content. -/
def Stack.write (s : Stack) (task : Nat) (scope : Scope) : Stack :=
  ⟨s.root, fun t => if t = task then scope else s.object t, s.pushed⟩

/-- One SDK call made by a task: the stack after it and the event it submits.
`PushScope` puts a clone of the top scope on the stack; the setters write the
scope object of the calling task; `CaptureException` takes the scope of the top
layer; `PopScope` removes the top layer, never the bottom one. -/
def Op.run (task : Nat) (s : Stack) : Op → Stack × List (ErrorValue × Scope)
  | Op.PushScope =>
    (⟨s.root, fun t => if t = task then s.top else s.object t, task :: s.pushed⟩, [])
  | Op.SetExtras extra => (s.write task ((s.object task).SetExtras extra), [])
  | Op.SetExtra key value => (s.write task ((s.object task).SetExtra key value), [])
  | Op.SetTags tags => (s.write task ((s.object task).SetTags tags), [])
  | Op.CaptureException err => (s, [(err, s.top)])
  | Op.PopScope => (⟨s.root, s.object, s.pushed.tail⟩, [])

/-- The SDK calls of one task run in a row, nothing in between. -/
def Stack.runAll (task : Nat) : Stack → List Op → Stack × List (ErrorValue × Scope)
  | s, [] => (s, [])
  | s, op :: rest =>
    let r := Op.run task s op
    let q := Stack.runAll task r.1 rest
    (q.1, r.2 ++ q.2)

/-- Concurrent calls of `Capture` on one hub: the shared stack, the SDK calls
each task has still to make, and the events submitted so far, each with the task
that submitted it. -/
structure Pool where
  stack : Stack
  tasks : List (List Op)
  events : List (Nat × ErrorValue × Scope)

/-- The pool before any call has started: task `i` is to run `Capture` on the
`i`-th error. -/
def Pool.start {σ : Type} (wrapper : Sentry σ) (hub : Hub) (calls : List ErrorValue) : Pool :=
  ⟨⟨hub.scope, fun _ => hub.scope, []⟩, calls.map (fun e => Capture.steps wrapper (some e)), []⟩

/-- The scheduler lets a task make its next SDK call; a task that has finished,
or does not exist, makes none. -/
def Pool.step (p : Pool) (task : Nat) : Pool :=
  match p.tasks[task]? with
  | some (op :: rest) =>
    let r := Op.run task p.stack op
    ⟨r.1, p.tasks.set task rest, p.events ++ r.2.map (fun ev => (task, ev))⟩
  | _ => p

/-- The pool after a schedule: the tasks take their turns in the order listed. -/
def Pool.run (p : Pool) (schedule : List Nat) : Pool :=
  schedule.foldl Pool.step p

/-- The tags of the submitted events at one key, each with the task that
submitted it and the message of the error it is for. -/
def Pool.tagsAt (p : Pool) (key : String) : List (Nat × String × Option String) :=
  p.events.map (fun ev => (ev.1, ev.2.1.message, ev.2.2.tags key))

/-! ## Sample values -/

/-- The state of the sample serving program: the calls its handlers received. -/
abbrev sample.Calls := List (http.ResponseWriter × http.Request)

/-- A handler that records the call it receives and returns. -/
def sample.recording : http.Handler sample.Calls :=
  ⟨fun w r s => (Outcome.returned, s ++ [(w, r)])⟩

/-- An instrumentation handler that records the call before the handler runs. -/
def sample.instrumented : sentryWrapper.Handler sample.Calls :=
  ⟨fun h w r s => h w r (s ++ [(w, r)]), fun h w r ps s => h w r ps (s ++ [(w, r)])⟩

/-- An SDK that builds a client for every DSN but "bad" and answers every
submission with an event identifier. -/
def sample.sdk : Sdk sample.Calls :=
  ⟨fun options => if options.Dsn = "bad" then Except.error "bad DSN" else Except.ok ⟨options⟩,
   fun _ _ => some "fc6d8c0c43fc4630ad850ee518f1b9d0",
   fun _ => sample.instrumented⟩

/-- An SDK whose submissions return no event identifier (a nil `*EventID`). -/
def sample.sdkNoId : Sdk sample.Calls :=
  ⟨sample.sdk.NewClient, fun _ _ => none, sample.sdk.New⟩

/-- An enabled reporter. -/
def sample.enabled : Sentry sample.Calls :=
  ⟨some ⟨⟨"https://key@sentry.example/1", "prod"⟩⟩, some sample.instrumented⟩

/-- A disabled reporter. -/
def sample.disabled : Sentry sample.Calls := ⟨none, none⟩

/-- An error without extras. -/
def sample.plain : ErrorValue :=
  ⟨"boom", none, Value.string "main.go:10", GoMap.single "team" "asr"⟩

/-- An error whose extras already bind "stacktrace" and bind "custom_service"
to false. -/
def sample.annotated : ErrorValue :=
  ⟨"boom", some (GoMap.set (GoMap.single "stacktrace" (Value.int 0)) "custom_service" (Value.bool false)),
   Value.string "main.go:10", GoMap.single "team" "asr"⟩

/-- An error marked `custom_service = true`. -/
def sample.suppressed : ErrorValue :=
  ⟨"expected", some (GoMap.single "custom_service" (Value.bool true)),
   Value.string "main.go:10", GoMap.single "team" "asr"⟩

/-- An error whose `custom_service` annotation is a string. -/
def sample.mistyped : ErrorValue :=
  ⟨"boom", some (GoMap.single "custom_service" (Value.string "true")),
   Value.string "main.go:10", GoMap.single "team" "asr"⟩

/-- The error of a first task, tagged with its task. -/
def sample.first : ErrorValue :=
  ⟨"first failed", none, Value.string "first.go:3", GoMap.single "task" "first"⟩

/-- The error of a second task, tagged with its task. -/
def sample.second : ErrorValue :=
  ⟨"second failed", none, Value.string "second.go:8", GoMap.single "task" "second"⟩

/-- An environment in which `SENTRY_DSN` has the given value and `ENVIRONMENT`
is "prod"; `os.Getenv` answers "" for a variable that is not set. -/
def sample.Getenv (dsn : String) : String → String :=
  fun key => if key = "SENTRY_DSN" then dsn else if key = "ENVIRONMENT" then "prod" else ""

/-- The hub before `sentry.Init`: no client bound, nothing set on its scope. -/
def sample.hub : Hub := ⟨none, sentry.NewScope⟩

/-- The hub of the enabled sample reporter, nothing set on its scope. -/
def sample.untouched : Hub := ⟨sample.enabled.client, sentry.NewScope⟩

/-- The hub of the enabled sample reporter after the program has set the tag
"region" on its scope. -/
def sample.configured : Hub :=
  ⟨sample.enabled.client, sentry.NewScope.SetTags (GoMap.single "region" "in")⟩

/-- A response writer and a request. -/
def sample.writer : http.ResponseWriter := ⟨7⟩

/-- A request. -/
def sample.request : http.Request := ⟨"GET", "/health"⟩

/-! ## Lemmas on maps and effect lists -/

/-- Setting all entries of a map on the empty map gives that map. -/
theorem GoMap.setAll_empty {β : Type} (m : GoMap β) : GoMap.setAll GoMap.empty m = m := by
  funext k
  unfold GoMap.setAll GoMap.empty
  cases m k <;> rfl

/-- A key reads back the value it was set to. -/
theorem GoMap.set_self {β : Type} (m : GoMap β) (key : String) (value : β) :
    GoMap.set m key value key = some value := by
  simp [GoMap.set]

/-- The one-entry map binds its key. -/
theorem GoMap.single_self {β : Type} (key : String) (value : β) :
    GoMap.single key value key = some value := by
  simp [GoMap.single]

/-- The submissions of two effect lists in a row. -/
theorem submissions_append (xs ys : List Effect) :
    submissions (xs ++ ys) = submissions xs ++ submissions ys := by
  induction xs with
  | nil => rfl
  | cons x xs ih => cases x <;> simp [submissions, ih]

/-- The end of the callback submits once, in the scope it was given with the
tags of the error set, whatever identifier comes back. -/
theorem Capture.submit_submissions {σ : Type} (sdk : Sdk σ) (err : ErrorValue) (scope : Scope)
    (done : List Effect) :
    submissions (Capture.submit sdk err scope done).2.2
      = submissions done ++ [(err, scope.SetTags (errors.Tags err))] := by
  unfold Capture.submit
  cases h : sdk.CaptureException err (scope.SetTags (errors.Tags err)) <;>
    simp [h, submissions_append, submissions]

/-- The effects of `Capture` are those of the branch taken, whether or not the
panic is asked for. -/
theorem Capture.effects_eq {σ : Type} (sdk : Sdk σ) (wrapper : Sentry σ) (hub : Hub)
    (e : ErrorValue) (_panic : Bool) :
    (Capture sdk wrapper hub (some e) _panic).2 =
      (match wrapper.client with
        | some _ => sentry.WithScope hub (Capture.callback sdk e)
        | none => (Outcome.returned, [Effect.Error e])).2 := by
  unfold Capture
  cases wrapper.client <;> simp only []
  · cases _panic <;> simp
  · cases (sentry.WithScope hub (Capture.callback sdk e)).1 <;> cases _panic <;> simp

/-- When the branch taken returns, asking for the panic changes nothing but the
end: the same effects, then a panic whose value is the error. -/
theorem Capture.panic_after_branch {σ : Type} (sdk : Sdk σ) (wrapper : Sentry σ) (hub : Hub)
    (e : ErrorValue)
    (hreturned : (Capture sdk wrapper hub (some e) false).1 = Outcome.returned) :
    Capture sdk wrapper hub (some e) true
      = (Outcome.panicked (PanicValue.error e), (Capture sdk wrapper hub (some e) false).2) := by
  unfold Capture at hreturned ⊢
  cases hc : wrapper.client with
  | none => simp
  | some client =>
    simp only [hc] at hreturned ⊢
    cases hw : (sentry.WithScope hub (Capture.callback sdk e)).1 with
    | returned => simp
    | panicked v => simp [hw] at hreturned

/-- The branch taken returns when the reporter has no client, and also when the
`custom_service` annotation, if any, is a boolean and the submission, if any,
returns an event identifier. -/
theorem Capture.returns_without_fault {σ : Type} (sdk : Sdk σ) (wrapper : Sentry σ)
    (hub : Hub) (e : ErrorValue)
    (hok : wrapper.client = none ∨
      ((∀ extras value, errors.Extras e = some extras → extras "custom_service" = some value →
          ∃ b, value = Value.bool b)
        ∧ ∀ scope, sdk.CaptureException e scope ≠ none)) :
    (Capture sdk wrapper hub (some e) false).1 = Outcome.returned := by
  unfold Capture
  cases hc : wrapper.client with
  | none => simp
  | some client =>
    rcases hok with hnone | ⟨hbool, hid⟩
    · simp [hc] at hnone
    · have hsubmit : ∀ scope done, (Capture.submit sdk e scope done).1 = Outcome.returned := by
        intro scope done
        unfold Capture.submit
        cases hs : sdk.CaptureException e (scope.SetTags (errors.Tags e)) with
        | none => exact absurd hs (hid _)
        | some id => simp [hs]
      have hcb : (sentry.WithScope hub (Capture.callback sdk e)).1 = Outcome.returned := by
        simp only [sentry.WithScope, Capture.callback]
        cases hx : errors.Extras e with
        | none => simp [hsubmit]
        | some extras =>
          simp only []
          unfold Capture.abortLog
          cases hv : extras "custom_service" with
          | none => simp [hsubmit]
          | some value =>
            obtain ⟨b, rfl⟩ := hbool extras value hx hv
            cases b <;> simp [Value.assertBool, hsubmit]
      simp [hcb]

/-- The SDK calls of a call of `Capture` that runs with nothing in between
submit what `Capture` running alone submits on a hub whose top scope is the top
of the stack, and leave the layers of the stack as they were. -/
theorem Capture.steps_alone {σ : Type} (sdk : Sdk σ) (wrapper : Sentry σ) (client : Client)
    (henabled : wrapper.client = some client) (task : Nat) (s : Stack) (e : ErrorValue) :
    (Stack.runAll task s (Capture.steps wrapper (some e))).2
        = submissions (Capture sdk wrapper ⟨wrapper.client, s.top⟩ (some e) false).2
    ∧ (Stack.runAll task s (Capture.steps wrapper (some e))).1.pushed = s.pushed
    ∧ (Stack.runAll task s (Capture.steps wrapper (some e))).1.root = s.root := by
  rw [Capture.effects_eq, henabled]
  simp only [Capture.steps, henabled, sentry.WithScope, Capture.callback]
  cases hx : errors.Extras e with
  | none =>
    simp [Stack.runAll, Op.run, Stack.write, Stack.top, Capture.submit_submissions, submissions]
  | some extras =>
    cases ha : Capture.abortLog extras with
    | error v => simp [ha, Stack.runAll, Op.run, submissions]
    | ok b =>
      cases b
      · simp [ha, Stack.runAll, Op.run, Stack.write, Stack.top, Capture.submit_submissions,
          submissions]
      · simp [ha, Stack.runAll, Op.run, submissions]

/-! ## Theorems -/

/-- C4. `Capture(nil, shouldPanic)` is a no-op on every reporter, for both
values of `shouldPanic` and whatever the state of the hub: no effect at all (no
log entry, no submission, no scope setter) and a normal return. -/
theorem capture_nil_is_noop {σ : Type} (sdk : Sdk σ) (wrapper : Sentry σ) (hub : Hub)
    (_panic : Bool) :
    Capture sdk wrapper hub none _panic = (Outcome.returned, []) := by
  rfl

/-- C5. On a reporter without client, `Capture(e, false)` for a non-nil `e`,
whatever its annotations and whatever the state of the hub, returns normally and
its only effect is the one log entry `log.Error(e)`, which carries no event
identifier: no submission and no scope setter. -/
theorem capture_disabled_logs_locally {σ : Type} (sdk : Sdk σ) (wrapper : Sentry σ)
    (hub : Hub) (e : ErrorValue) (hdisabled : wrapper.client = none) :
    Capture sdk wrapper hub (some e) false = (Outcome.returned, [Effect.Error e]) := by
  simp [Capture, hdisabled]

/-- Witness of C5: the disabled sample reporter and an error marked
`custom_service = true`. -/
theorem capture_disabled_logs_locally_witness :
    Capture sample.sdk sample.disabled sample.hub (some sample.suppressed) false
      = (Outcome.returned, [Effect.Error sample.suppressed]) :=
  capture_disabled_logs_locally sample.sdk sample.disabled sample.hub sample.suppressed rfl

/-- C3. On a reporter with a client, `Capture(e, false)` for an error whose
extras bind `custom_service` to the boolean true returns normally with no effect
at all, whatever the state of the hub: no remote submission, no setter called on
the scope, no log entry. -/
theorem capture_suppressed_is_silent {σ : Type} (sdk : Sdk σ) (wrapper : Sentry σ)
    (hub : Hub) (client : Client) (e : ErrorValue) (extras : GoMap Value)
    (henabled : wrapper.client = some client)
    (hextras : errors.Extras e = some extras)
    (hflag : extras "custom_service" = some (Value.bool true)) :
    Capture sdk wrapper hub (some e) false = (Outcome.returned, []) := by
  simp [Capture, henabled, sentry.WithScope, Capture.callback, hextras, Capture.abortLog,
    hflag, Value.assertBool]

/-- Witness of C3: the enabled sample reporter and the suppressed sample error,
on a hub whose scope carries a tag. -/
theorem capture_suppressed_is_silent_witness :
    Capture sample.sdk sample.enabled sample.configured (some sample.suppressed) false
      = (Outcome.returned, []) :=
  capture_suppressed_is_silent sample.sdk sample.enabled sample.configured _ sample.suppressed
    (GoMap.single "custom_service" (Value.bool true)) rfl rfl (by decide)

/-- C2, as stated, fails. On a hub whose scope carries the tag "region", the one
submission of `Capture(e, false)` for the plain sample error is made in a scope
that carries "region" too, so no scope with tags exactly `Tags(e)` is the scope
of the submission. -/
theorem capture_scope_inherits_hub_tags :
    ¬ ∃ scope : Scope,
      submissions (Capture sample.sdk sample.enabled sample.configured (some sample.plain)
          false).2 = [(sample.plain, scope)]
      ∧ scope.tags = errors.Tags sample.plain
      ∧ scope.extra =
          (match errors.Extras sample.plain with
            | some extras => GoMap.set extras "stacktrace" (errors.Stacktrace sample.plain)
            | none => GoMap.single "stacktrace" (errors.Stacktrace sample.plain))
      ∧ scope.extra "stacktrace" = some (errors.Stacktrace sample.plain)
      ∧ ∃ key value, scope.extra key = some value := by
  rintro ⟨scope, hsub, htags, -⟩
  have hrun : submissions (Capture sample.sdk sample.enabled sample.configured
      (some sample.plain) false).2
      = [(sample.plain,
          (sample.configured.scope.SetExtras
            (GoMap.single "stacktrace" (errors.Stacktrace sample.plain))).SetTags
            (errors.Tags sample.plain))] := rfl
  rw [hrun] at hsub
  have hscope := (Prod.mk.inj (List.cons.inj hsub).1).2
  rw [← hscope] at htags
  have hregion := congrFun htags "region"
  revert hregion
  decide

/-- C2, amended. On a reporter with a client, `Capture(e, false)`, running alone
on the hub, for an error whose extras do not bind `custom_service` to true (nil
extras, key absent, or key bound to false) submits exactly once: the submissions
among its effects are the single pair of `e` and a scope that is the scope of
the hub's top layer with more set on it. Its tags are those of the hub's scope
with `Tags(e)` set over them; its extras are those of the hub's scope with
`Extras(e)` and then "stacktrace" = `Stacktrace(e)` set over them (only the
latter when `Extras(e)` is nil); so every tag of `e` is on it, and its extras
bind "stacktrace" to `Stacktrace(e)` and are not empty. On a hub whose scope
carries nothing, the tags are exactly `Tags(e)` and the extras exactly
`Extras(e)` with "stacktrace" set (just that entry when `Extras(e)` is nil). -/
theorem capture_submits_once_over_hub_scope {σ : Type} (sdk : Sdk σ) (wrapper : Sentry σ)
    (hub : Hub) (client : Client) (e : ErrorValue)
    (henabled : wrapper.client = some client)
    (hlacks : ∀ extras, errors.Extras e = some extras →
      extras "custom_service" = none ∨ extras "custom_service" = some (Value.bool false)) :
    ∃ scope : Scope,
      submissions (Capture sdk wrapper hub (some e) false).2 = [(e, scope)]
      ∧ scope.tags = GoMap.setAll hub.scope.tags (errors.Tags e)
      ∧ scope.extra =
          (match errors.Extras e with
            | some extras =>
              GoMap.set (GoMap.setAll hub.scope.extra extras) "stacktrace" (errors.Stacktrace e)
            | none =>
              GoMap.setAll hub.scope.extra (GoMap.single "stacktrace" (errors.Stacktrace e)))
      ∧ (∀ key value, errors.Tags e key = some value → scope.tags key = some value)
      ∧ scope.extra "stacktrace" = some (errors.Stacktrace e)
      ∧ (∃ key value, scope.extra key = some value)
      ∧ (hub.scope = sentry.NewScope →
          scope.tags = errors.Tags e
          ∧ scope.extra =
              (match errors.Extras e with
                | some extras => GoMap.set extras "stacktrace" (errors.Stacktrace e)
                | none => GoMap.single "stacktrace" (errors.Stacktrace e))) := by
  rw [Capture.effects_eq, henabled]
  simp only [sentry.WithScope, Capture.callback]
  have htag : ∀ key value, errors.Tags e key = some value →
      GoMap.setAll hub.scope.tags (errors.Tags e) key = some value := by
    intro key value h
    simp [GoMap.setAll, h]
  cases hx : errors.Extras e with
  | none =>
    refine ⟨(hub.scope.SetExtras (GoMap.single "stacktrace" (errors.Stacktrace e))).SetTags
      (errors.Tags e), ?_, rfl, rfl, htag, ?_, ?_, ?_⟩
    · simp only [Capture.submit_submissions, submissions, List.nil_append]
    · simp [Scope.SetTags, Scope.SetExtras, GoMap.setAll, GoMap.single_self]
    · exact ⟨"stacktrace", errors.Stacktrace e, by
        simp [Scope.SetTags, Scope.SetExtras, GoMap.setAll, GoMap.single_self]⟩
    · intro hnew
      simp [hnew, Scope.SetTags, Scope.SetExtras, sentry.NewScope, GoMap.setAll_empty]
  | some extras =>
    have hfalse : Capture.abortLog extras = Except.ok false := by
      unfold Capture.abortLog
      rcases hlacks extras hx with h | h <;> simp [h, Value.assertBool]
    simp only [hfalse]
    refine ⟨((hub.scope.SetExtras extras).SetExtra "stacktrace" (errors.Stacktrace e)).SetTags
      (errors.Tags e), ?_, rfl, rfl, htag, ?_, ?_, ?_⟩
    · simp only [Capture.submit_submissions, submissions, List.nil_append]
    · simp [Scope.SetTags, Scope.SetExtras, Scope.SetExtra, GoMap.set_self]
    · exact ⟨"stacktrace", errors.Stacktrace e, by
        simp [Scope.SetTags, Scope.SetExtras, Scope.SetExtra, GoMap.set_self]⟩
    · intro hnew
      simp [hnew, Scope.SetTags, Scope.SetExtras, Scope.SetExtra, sentry.NewScope,
        GoMap.setAll_empty]

/-- Witness of C2, amended: the enabled sample reporter on a hub whose scope
carries nothing, and an error whose extras bind `custom_service` to false and
already bind "stacktrace". -/
theorem capture_submits_once_over_hub_scope_witness :
    ∃ scope : Scope,
      submissions (Capture sample.sdk sample.enabled sample.untouched (some sample.annotated)
          false).2 = [(sample.annotated, scope)]
      ∧ scope.tags = errors.Tags sample.annotated
      ∧ scope.extra =
          (match errors.Extras sample.annotated with
            | some extras => GoMap.set extras "stacktrace" (errors.Stacktrace sample.annotated)
            | none => GoMap.single "stacktrace" (errors.Stacktrace sample.annotated))
      ∧ scope.extra "stacktrace" = some (errors.Stacktrace sample.annotated)
      ∧ ∃ key value, scope.extra key = some value :=
  match capture_submits_once_over_hub_scope sample.sdk sample.enabled sample.untouched _
      sample.annotated rfl
      (fun extras h => by
        have h2 : GoMap.set (GoMap.single "stacktrace" (Value.int 0)) "custom_service"
            (Value.bool false) = extras := Option.some.inj h
        subst h2
        exact Or.inr (by decide)) with
  | ⟨scope, hsub, _, _, _, hstack, hsome, hnew⟩ =>
    ⟨scope, hsub, (hnew rfl).1, (hnew rfl).2, hstack, hsome⟩

/-- C1, at a failing input. On the enabled sample reporter, whatever the state
of the hub, `Capture(e, true)` for the error whose `custom_service` annotation
is the string "true" panics in the type assertion, before anything is set,
submitted or logged, and the panic value is the run-time fault, not `e`; and
when the submission of the plain sample error returns no event identifier,
`Capture(e, true)` panics in the dereference of the identifier, again not with
`e`. -/
theorem capture_panic_raises_fault_not_err (hub : Hub) :
    Capture sample.sdk sample.enabled hub (some sample.mistyped) true
        = (Outcome.panicked (PanicValue.typeAssertion (Value.string "true")), [])
    ∧ (Capture sample.sdk sample.enabled hub (some sample.mistyped) true).1
        ≠ Outcome.panicked (PanicValue.error sample.mistyped)
    ∧ (Capture sample.sdkNoId sample.enabled hub (some sample.plain) true).1
        = Outcome.panicked PanicValue.nilDereference
    ∧ (Capture sample.sdkNoId sample.enabled hub (some sample.plain) true).1
        ≠ Outcome.panicked (PanicValue.error sample.plain) := by
  refine ⟨rfl, ?_, rfl, ?_⟩
  · intro h
    have h2 : Outcome.panicked (PanicValue.typeAssertion (Value.string "true"))
        = Outcome.panicked (PanicValue.error sample.mistyped) := h
    cases h2
  · intro h
    have h2 : Outcome.panicked PanicValue.nilDereference
        = Outcome.panicked (PanicValue.error sample.plain) := h
    cases h2

/-- C10, at a failing input. On the enabled sample reporter, whatever the state
of the hub, `Capture(e, false)` does not return normally for the error whose
`custom_service` annotation is the string "true" (it panics in the type
assertion), nor for the plain sample error when its submission returns no event
identifier (it panics in the dereference). -/
theorem capture_faults_unasked (hub : Hub) :
    (Capture sample.sdk sample.enabled hub (some sample.mistyped) false).1
        = Outcome.panicked (PanicValue.typeAssertion (Value.string "true"))
    ∧ (Capture sample.sdkNoId sample.enabled hub (some sample.plain) false).1
        = Outcome.panicked PanicValue.nilDereference :=
  ⟨rfl, rfl⟩

/-- C8, at a failing input. Two tasks call `Capture` at once on the enabled
sample reporter, on a hub whose scope carries nothing, for two errors tagged
"task" = "first" and "task" = "second". When the tasks take turns one SDK call
at a time, both layers are pushed before either error is submitted, the
submission of the first task takes the top layer, which is the scope of the
second, and the event for the first error carries "task" = "second". When the
first call ends before the second starts, each event carries its own tag. -/
theorem concurrent_capture_takes_foreign_scope :
    (Pool.run (Pool.start sample.enabled sample.untouched [sample.first, sample.second])
        [0, 1, 0, 1, 0, 1, 0, 1, 0, 1]).tagsAt "task"
      = [(0, "first failed", some "second"), (1, "second failed", some "second")]
    ∧ errors.Tags sample.first "task" = some "first"
    ∧ (Pool.run (Pool.start sample.enabled sample.untouched [sample.first, sample.second])
        [0, 0, 0, 0, 0, 1, 1, 1, 1, 1]).tagsAt "task"
      = [(0, "first failed", some "first"), (1, "second failed", some "second")] := by
  refine ⟨?_, ?_, ?_⟩ <;> decide

/-- C6. Without instrumentation handler, `HandleFunc(h)` is `h` and
`HandleHttpRouter(h)` is `h`; with an instrumentation handler, each is the result
of the handler's method of the same name applied to `h`. -/
theorem handle_unchanged_or_delegated {σ : Type} (wrapper : Sentry σ)
    (handler : http.HandlerFunc σ) (routed : httprouter.Handle σ) :
    (wrapper.handler = none →
      HandleFunc wrapper handler = handler ∧ HandleHttpRouter wrapper routed = routed)
    ∧ (∀ h : sentryWrapper.Handler σ, wrapper.handler = some h →
      HandleFunc wrapper handler = h.HandleFunc handler
      ∧ HandleHttpRouter wrapper routed = h.HandleHttpRouter routed) := by
  constructor
  · intro hnone
    simp [HandleFunc, HandleHttpRouter, hnone]
  · intro h hsome
    simp [HandleFunc, HandleHttpRouter, hsome]

/-- Witness of C6: the disabled and the enabled sample reporter, on the handler
function and the routed handler that record their call. -/
theorem handle_unchanged_or_delegated_witness :
    (HandleFunc sample.disabled sample.recording.ServeHTTP = sample.recording.ServeHTTP
      ∧ HandleHttpRouter sample.disabled (fun w r _ => sample.recording.ServeHTTP w r)
          = (fun w r _ => sample.recording.ServeHTTP w r))
    ∧ (HandleFunc sample.enabled sample.recording.ServeHTTP
          = sample.instrumented.HandleFunc sample.recording.ServeHTTP
      ∧ HandleHttpRouter sample.enabled (fun w r _ => sample.recording.ServeHTTP w r)
          = sample.instrumented.HandleHttpRouter (fun w r _ => sample.recording.ServeHTTP w r)) :=
  ⟨(handle_unchanged_or_delegated sample.disabled sample.recording.ServeHTTP
      (fun w r _ => sample.recording.ServeHTTP w r)).1 rfl,
   (handle_unchanged_or_delegated sample.enabled sample.recording.ServeHTTP
      (fun w r _ => sample.recording.ServeHTTP w r)).2 sample.instrumented rfl⟩

/-- C7. `initSentry` is total and its result has one of two shapes. If
`SENTRY_DSN` is empty, or it is not and `sentry.Init` returns an error, both the
client and the instrumentation handler are absent and the one effect is the
warning. Otherwise both are present (the client is the one `sentry.Init` bound
to the hub, the handler the one `sentryWrapper.New` built) and nothing is
logged. In every case the client is absent exactly when the handler is. -/
theorem initSentry_two_modes {σ : Type} (sdk : Sdk σ) (Getenv : String → String) (hub : Hub) :
    ((Getenv "SENTRY_DSN" = "" ∨
        (sentry.Init sdk ⟨Getenv "SENTRY_DSN", Getenv "ENVIRONMENT"⟩ hub).1 ≠ none) →
      initSentry sdk Getenv hub
        = (⟨none, none⟩, [Effect.Warnf initSentry.warning (Getenv "SENTRY_DSN")]))
    ∧ (¬ (Getenv "SENTRY_DSN" = "" ∨
        (sentry.Init sdk ⟨Getenv "SENTRY_DSN", Getenv "ENVIRONMENT"⟩ hub).1 ≠ none) →
      (∃ client, (initSentry sdk Getenv hub).1.client = some client
        ∧ sdk.NewClient ⟨Getenv "SENTRY_DSN", Getenv "ENVIRONMENT"⟩ = Except.ok client)
      ∧ (initSentry sdk Getenv hub).1.handler = some (sdk.New ⟨true⟩)
      ∧ (initSentry sdk Getenv hub).2 = [])
    ∧ ((initSentry sdk Getenv hub).1.client = none
        ↔ (initSentry sdk Getenv hub).1.handler = none) := by
  unfold initSentry sentry.Init
  by_cases hdsn : Getenv "SENTRY_DSN" = ""
  · simp [hdsn]
  · cases hnew : sdk.NewClient ⟨Getenv "SENTRY_DSN", Getenv "ENVIRONMENT"⟩ with
    | error err => simp [hdsn, hnew]
    | ok client => simp [hdsn, hnew]

/-- Witness of C7: the sample SDK with `SENTRY_DSN` unset, with the DSN the SDK
refuses, and with a DSN it accepts. -/
theorem initSentry_two_modes_witness :
    initSentry sample.sdk (sample.Getenv "") sample.hub
        = (⟨none, none⟩, [Effect.Warnf initSentry.warning ""])
    ∧ initSentry sample.sdk (sample.Getenv "bad") sample.hub
        = (⟨none, none⟩, [Effect.Warnf initSentry.warning "bad"])
    ∧ ((∃ client, (initSentry sample.sdk (sample.Getenv "https://key@sentry.example/1")
            sample.hub).1.client = some client
          ∧ sample.sdk.NewClient ⟨"https://key@sentry.example/1", "prod"⟩ = Except.ok client)
        ∧ (initSentry sample.sdk (sample.Getenv "https://key@sentry.example/1")
            sample.hub).1.handler = some (sample.sdk.New ⟨true⟩)
        ∧ (initSentry sample.sdk (sample.Getenv "https://key@sentry.example/1")
            sample.hub).2 = []) :=
  ⟨(initSentry_two_modes sample.sdk (sample.Getenv "") sample.hub).1 (Or.inl rfl),
   (initSentry_two_modes sample.sdk (sample.Getenv "bad") sample.hub).1 (Or.inr (by decide)),
   (initSentry_two_modes sample.sdk (sample.Getenv "https://key@sentry.example/1")
      sample.hub).2.1 (by decide)⟩

/-- C9. `SentryMiddleware(next)` is `HandleFunc` applied to the closure that
calls `next.ServeHTTP(w, r)`, returned as a handler. On a reporter without
instrumentation handler, serving `(w, r)` through it from any state is one call
of `next.ServeHTTP(w, r)` from that state and nothing else: same outcome, same
final state. -/
theorem SentryMiddleware_wraps_next {σ : Type} (wrapper : Sentry σ) (next : http.Handler σ) :
    SentryMiddleware wrapper next
        = http.HandlerFunc.toHandler (HandleFunc wrapper (fun w r => next.ServeHTTP w r))
    ∧ (wrapper.handler = none →
        ∀ (w : http.ResponseWriter) (r : http.Request) (s : σ),
          (SentryMiddleware wrapper next).ServeHTTP w r s = next.ServeHTTP w r s) := by
  refine ⟨rfl, ?_⟩
  intro hnone w r s
  simp [SentryMiddleware, HandleFunc, hnone, http.HandlerFunc.toHandler]

/-- Witness of C9: through the middleware of the disabled sample reporter, the
recording handler receives the call once, with the writer and request served. -/
theorem SentryMiddleware_wraps_next_witness :
    (SentryMiddleware sample.disabled sample.recording).ServeHTTP sample.writer sample.request []
      = (Outcome.returned, [(sample.writer, sample.request)]) :=
  ((SentryMiddleware_wraps_next sample.disabled sample.recording).2 rfl
    sample.writer sample.request []).trans rfl

end surveillance
